import Mathlib

/-!
Verification of the store-rating platform's data/authorization core.

The definitions below are a shallow embedding of the repository's schema
and operations: the supabase migration (tables `user_roles`, `stores`,
`ratings`, the `has_role` function, the row-level-security policies and the
`update_store_rating` trigger) and the client operations `submitRating`,
`assignDefaultRole`, `fetchUserRole`, `renderDashboard` and the role/store
inserts of the dashboards. Row-level security is part of the model: every
statement a client issues runs as the session's user, and the trigger
function, which is not SECURITY DEFINER, runs as the session that fired it,
so its inner UPDATE of `stores` is filtered by the stores UPDATE policies.
Machine identifiers (uuids) are modelled as naturals; `average_rating
DECIMAL(2,1)` is held in tenths (3.5 is 35); timestamps are dropped (no
claim mentions them). A statement the schema's constraints reject aborts
with no write: a fallible operation returns `Except`, and an error value
carries no successor state.
-/

namespace SpotCheck

/-- Roles of the `app_role` enum in the migration. -/
inductive Role where
  | system_administrator
  | normal_user
  | store_owner
deriving DecidableEq, Repr

abbrev UserId := Nat
abbrev StoreId := Nat

/-- Row of `public.user_roles`; the table's only uniqueness is
UNIQUE (user_id, role). -/
structure RoleRow where
  user_id : UserId
  role : Role
deriving DecidableEq, Repr

/-- Row of `public.stores`. `average_rating DECIMAL(2,1)` is held in tenths
(so 3.5 is stored as 35); both aggregate columns DEFAULT to 0. -/
structure StoreRow where
  id : StoreId
  user_id : UserId
  name : String
  email : String
  address : String
  average_rating : Nat
  total_ratings : Nat
deriving DecidableEq, Repr

/-- Row of `public.ratings`: UNIQUE (user_id, store_id),
CHECK (rating >= 1 AND rating <= 5), primary key `id`. -/
structure RatingRow where
  id : Nat
  user_id : UserId
  store_id : StoreId
  rating : Nat
deriving DecidableEq, Repr

/-- The three tables the claims concern. -/
structure DB where
  user_roles : List RoleRow
  stores : List StoreRow
  ratings : List RatingRow
deriving DecidableEq, Repr

/-- Error kinds raised by the constraints and surfaced to the client; the
spec's taxonomy reads a CHECK violation as ValidationError and a unique
violation as Conflict. -/
inductive DBError where
  | checkViolation
  | uniqueViolation
  | foreignKeyViolation
deriving DecidableEq, Repr

/-- Function `public.has_role(_user_id, _role)`: EXISTS a `user_roles` row
with that user and that role. The function is SECURITY DEFINER, so this
EXISTS reads the whole table regardless of the caller. -/
def has_role (db : DB) (u : UserId) (r : Role) : Bool :=
  db.user_roles.any fun rr => decide (rr.user_id = u ∧ rr.role = r)

/-- True when a `user_roles` row with this (user_id, role) pair exists: the
predicate behind the table's UNIQUE (user_id, role) constraint. -/
def roleRowExists (db : DB) (u : UserId) (r : Role) : Bool :=
  db.user_roles.any fun rr => decide (rr.user_id = u ∧ rr.role = r)

/-- Evaluation of `has_role(auth.uid(), r)` for a request whose session may
be anonymous (`auth.uid()` NULL): NULL holds no role. -/
def auth_has_role (db : DB) (uid : Option UserId) (r : Role) : Bool :=
  match uid with
  | some u => has_role db u r
  | none => false

/-- SELECT on `user_roles`: policy "Users can view their own roles"
(USING auth.uid() = user_id) OR-ed with "System admins can manage all
roles" (FOR ALL, USING has_role(auth.uid(), system_administrator)). -/
def user_roles_select_allowed (db : DB) (uid : Option UserId) (rr : RoleRow) : Bool :=
  decide (uid = some rr.user_id) || auth_has_role db uid .system_administrator

/-- Role rows a session can see under row-level security: what a count
query over `user_roles` issued by that session counts. -/
def visibleRoleRows (db : DB) (uid : Option UserId) : List RoleRow :=
  db.user_roles.filter fun rr => user_roles_select_allowed db uid rr

/-- INSERT on `user_roles`: the only policy admitting INSERT is "System
admins can manage all roles" (FOR ALL, whose WITH CHECK defaults to its
USING clause, has_role(auth.uid(), system_administrator)), so every
non-administrator INSERT into `user_roles` is denied. -/
def user_roles_insert_allowed (db : DB) (uid : Option UserId) : Bool :=
  auth_has_role db uid .system_administrator

/-- SELECT on `ratings`: the permissive policies "Users can view all
ratings" (TO authenticated, USING true) and "System admins can manage all
ratings" (FOR ALL, USING has_role(auth.uid(), system_administrator)) are
OR-ed. -/
def ratings_select_allowed (db : DB) (uid : Option UserId) : Bool :=
  uid.isSome || auth_has_role db uid .system_administrator

/-- INSERT on `ratings`: policy "Normal users can create ratings"
(WITH CHECK has_role(auth.uid(), normal_user) AND auth.uid() = user_id)
OR-ed with "System admins can manage all ratings". -/
def ratings_insert_allowed (db : DB) (uid : Option UserId) (row : RatingRow) : Bool :=
  (auth_has_role db uid .normal_user && decide (uid = some row.user_id))
    || auth_has_role db uid .system_administrator

/-- UPDATE on `ratings`: policy "Normal users can update their own ratings"
(USING has_role(auth.uid(), normal_user) AND auth.uid() = user_id) OR-ed
with "System admins can manage all ratings". -/
def ratings_update_allowed (db : DB) (uid : Option UserId) (row : RatingRow) : Bool :=
  (auth_has_role db uid .normal_user && decide (uid = some row.user_id))
    || auth_has_role db uid .system_administrator

/-- UPDATE on `stores`: policy "Store owners can update their own stores"
(USING auth.uid() = user_id) OR-ed with "System admins can manage all
stores". Neither policy mentions columns. -/
def stores_update_allowed (db : DB) (uid : Option UserId) (st : StoreRow) : Bool :=
  decide (uid = some st.user_id) || auth_has_role db uid .system_administrator

/-- Rating rows of one store (`WHERE store_id = s`). -/
def storeRatings (s : StoreId) (rts : List RatingRow) : List RatingRow :=
  rts.filter fun r => decide (r.store_id = s)

/-- Sum of the rating values of a list of rating rows. -/
def ratingsSum (rts : List RatingRow) : Nat :=
  (rts.map fun r => r.rating).sum

/-- Value the trigger stores into `average_rating`, in tenths:
`COALESCE(AVG(rating), 0)` assigned to a DECIMAL(2,1) column, which rounds
the exact mean to one fractional digit, half away from zero. For a
nonempty set of nonnegative values that is `(20*sum + count) / (2*count)`
in integer division. -/
def trigger_avg_tenths (sum count : Nat) : Nat :=
  if count = 0 then 0 else (20 * sum + count) / (2 * count)

/-- Trigger function `public.update_store_rating()` invoked by the session
`uid` whose mutation fired it: recompute `average_rating` and
`total_ratings` of the store row whose id is the affected `store_id`, from
the ratings table as it stands after the triggering mutation (the ratings
SELECT policy shows every row to an authenticated session). The function is
plain LANGUAGE plpgsql — not SECURITY DEFINER, unlike `has_role` — so its
inner `UPDATE public.stores` runs as `uid` and is filtered by the stores
UPDATE policies: only rows that session may update (its own store, or any
row for an administrator) are recomputed; for any other session the UPDATE
matches zero rows and the aggregates are silently left as they were. -/
def update_store_rating (uid : Option UserId) (s : StoreId) (db : DB) : DB :=
  let rows := storeRatings s db.ratings
  { db with
    stores := db.stores.map fun st =>
      if st.id = s ∧ stores_update_allowed db uid st = true then
        { st with
          average_rating := trigger_avg_tenths (ratingsSum rows) rows.length
          total_ratings := rows.length }
      else st }

/-- True when a `ratings` row with this (user_id, store_id) pair exists. -/
def ratingPairExists (u : UserId) (s : StoreId) (rts : List RatingRow) : Bool :=
  rts.any fun r => decide (r.user_id = u ∧ r.store_id = s)

/-- True when a `stores` row with this id exists (the foreign key target of
`ratings.store_id`). -/
def storeExists (s : StoreId) (db : DB) : Bool :=
  db.stores.any fun st => decide (st.id = s)

/-- Fresh primary key for a `ratings` insert (`gen_random_uuid()` in the
schema): one larger than every id already present. -/
def freshRatingId (db : DB) : Nat :=
  (db.ratings.map fun r => r.id).foldr max 0 + 1

/-- Modelled from the spec's words, for comparison with the trigger: the
mean of the values rounded to one decimal digit (half away from zero),
expressed in tenths, and 0.0 for an empty set of ratings. -/
def round1_tenths (sum count : Nat) : Nat :=
  if count = 0 then 0
  else 10 * sum / count + (if count ≤ 2 * (10 * sum % count) then 1 else 0)

/-- One store row carries exactly the derived aggregates of a ratings
list: its count and its rounded mean. -/
def consistentRow (st : StoreRow) (rts : List RatingRow) : Prop :=
  st.total_ratings = (storeRatings st.id rts).length ∧
  st.average_rating =
    round1_tenths (ratingsSum (storeRatings st.id rts)) (storeRatings st.id rts).length

/-- Every store row of the database carries its derived aggregates. -/
def storeAggregatesConsistent (db : DB) : Prop :=
  ∀ st ∈ db.stores, consistentRow st db.ratings

instance (db : DB) : Decidable (storeAggregatesConsistent db) := by
  unfold storeAggregatesConsistent consistentRow
  infer_instance

/-- PostgREST upsert of a `ratings` row exactly as the client issues it,
with no onConflict option, so the conflict target defaults to the PRIMARY
KEY `id`. A conflicting id is overwritten (DO UPDATE); otherwise the
statement is a plain insert, on which the CHECK range constraint, the
UNIQUE (user_id, store_id) constraint and the foreign key into `stores`
are enforced. The aggregate trigger fires on success; the repository's
only ratings writer is `submitRating`, where the acting session is the
row's own user (the ratings INSERT policy admits exactly that pairing for
normal users), so the trigger runs as `some row.user_id`. A constraint
error aborts the statement with no write. -/
def ratings_upsert_on_pk (row : RatingRow) (db : DB) : Except DBError DB :=
  if ¬ (1 ≤ row.rating ∧ row.rating ≤ 5) then .error .checkViolation
  else if db.ratings.any fun r => decide (r.id = row.id) then
    .ok (update_store_rating (some row.user_id) row.store_id
      { db with ratings := db.ratings.map fun r => if r.id = row.id then row else r })
  else if ratingPairExists row.user_id row.store_id db.ratings then .error .uniqueViolation
  else if ¬ storeExists row.store_id db then .error .foreignKeyViolation
  else .ok (update_store_rating (some row.user_id) row.store_id
    { db with ratings := db.ratings ++ [row] })

/-- Client `submitRating` (UserDashboard), issued by the session of user
`u` for their own row: an upsert of `{user_id, store_id, rating}` carrying
a fresh primary key and naming no onConflict columns. -/
def submitRating (u : UserId) (s : StoreId) (v : Nat) (db : DB) : Except DBError DB :=
  ratings_upsert_on_pk ⟨freshRatingId db, u, s, v⟩ db

/-- Role the client bootstrap picks for caller `u`: the code compares the
count it read against 0, but that count query runs under the `user_roles`
SELECT policy, so it counts only the rows visible to `u` — for a roleless
non-admin caller that is always 0, making the normal_user branch
unreachable for the callers the bootstrap serves. -/
def defaultRole (db : DB) (u : UserId) : Role :=
  if (visibleRoleRows db (some u)).length = 0 then Role.system_administrator
  else Role.normal_user

/-- Client `assignDefaultRole` (useAuth), acting as user `u` themselves:
reads the RLS-filtered count of `user_roles`, picks the role from that
count, then attempts the insert. No policy permits a non-administrator
INSERT into `user_roles`, so for the bootstrap's callers the insert is
denied; a denied (or unique-violating) insert takes the error path, which
returns null and persists nothing. -/
def assignDefaultRole (db : DB) (u : UserId) : Option Role × DB :=
  if user_roles_insert_allowed db (some u) then
    if roleRowExists db u (defaultRole db u) then (none, db)
    else (some (defaultRole db u),
      { db with user_roles := db.user_roles ++ [⟨u, defaultRole db u⟩] })
  else (none, db)

/-- Plain insert into `user_roles` by an actor the policies admit (the
AdminDashboard's createUser runs as an administrator): the remaining guard
is the UNIQUE (user_id, role) constraint. -/
def assign_role (db : DB) (u : UserId) (r : Role) : Except DBError DB :=
  if roleRowExists db u r then .error .uniqueViolation
  else .ok { db with user_roles := db.user_roles ++ [⟨u, r⟩] }

/-- Client `fetchUserRole` (useAuth): reads the user's own role rows (the
SELECT policy admits an own-id read in full) with maybeSingle, which
errors when more than one row matches; the error path leaves the role
null, an empty result bootstraps a default role, a single row yields its
role. -/
def fetchUserRole (db : DB) (u : UserId) : Option Role × DB :=
  if 1 < (db.user_roles.filter fun rr => decide (rr.user_id = u)).length then (none, db)
  else
    match db.user_roles.filter fun rr => decide (rr.user_id = u) with
    | [] => assignDefaultRole db u
    | rr :: _ => (some rr.role, db)

/-- Dashboards the Index page can render. -/
inductive Dashboard where
  | adminDashboard
  | userDashboard
  | storeOwnerDashboard
  | rolePending
deriving DecidableEq, Repr

/-- Client `renderDashboard` (Index page): the switch on userRole, whose
default branch is the "Role Assignment Pending" screen. -/
def renderDashboard : Option Role → Dashboard
  | some Role.system_administrator => .adminDashboard
  | some Role.normal_user => .userDashboard
  | some Role.store_owner => .storeOwnerDashboard
  | none => .rolePending

/-- SET list of an UPDATE on `stores`; a field left `none` keeps the old
value. No layer of the repository restricts which columns an UPDATE may
set, so the aggregate columns are as settable as the profile ones. -/
structure StoreUpdate where
  name : Option String
  email : Option String
  address : Option String
  average_rating : Option Nat
  total_ratings : Option Nat
deriving DecidableEq, Repr

/-- Apply an UPDATE's SET list to one store row. -/
def applyStoreUpdate (upd : StoreUpdate) (st : StoreRow) : StoreRow :=
  { st with
    name := upd.name.getD st.name
    email := upd.email.getD st.email
    address := upd.address.getD st.address
    average_rating := upd.average_rating.getD st.average_rating
    total_ratings := upd.total_ratings.getD st.total_ratings }

/-- UPDATE on `stores` under row-level security: the SET list is applied to
every row with the target id that satisfies a permissive UPDATE policy;
rows the policies hide are silently left alone (zero rows affected, no
Forbidden error). -/
def update_store (db : DB) (uid : Option UserId) (sid : StoreId) (upd : StoreUpdate) : DB :=
  { db with stores := db.stores.map fun st =>
      if st.id = sid ∧ stores_update_allowed db uid st = true
      then applyStoreUpdate upd st else st }

/-- Thread-local state of one in-flight `assignDefaultRole` call: the count
it has read, if any, and whether its insert has run. -/
structure BootCall where
  uid : UserId
  saved : Option Nat
  done : Bool
deriving DecidableEq, Repr

/-- One scheduler step of an in-flight bootstrap call, following the two
separate statements of `assignDefaultRole`: the first step reads the
RLS-filtered count of `user_roles` (the rows visible to the caller), the
second attempts the insert of the row computed from the saved count
(system_administrator exactly when the saved count was 0). The insert is
subject to the `user_roles` INSERT policies — which deny every
non-administrator — and to the UNIQUE (user_id, role) constraint; a denied
or rejected insert leaves the database unchanged. -/
def bootStep (db : DB) (t : BootCall) : DB × BootCall :=
  match t.saved, t.done with
  | none, _ => (db, { t with saved := some (visibleRoleRows db (some t.uid)).length })
  | some c, false =>
      if user_roles_insert_allowed db (some t.uid) then
        if roleRowExists db t.uid
            (if c = 0 then Role.system_administrator else Role.normal_user) then
          (db, { t with done := true })
        else
          ({ db with user_roles := db.user_roles ++
              [⟨t.uid, if c = 0 then Role.system_administrator else Role.normal_user⟩] },
           { t with done := true })
      else (db, { t with done := true })
  | some _, true => (db, t)

/-- Run two concurrent bootstrap calls under a schedule: `true` steps the
first call, `false` the second. -/
def bootRun (sched : List Bool) (db : DB) (t1 t2 : BootCall) : DB :=
  match sched with
  | [] => db
  | b :: rest =>
      if b then bootRun rest (bootStep db t1).1 (bootStep db t1).2 t2
      else bootRun rest (bootStep db t2).1 t1 (bootStep db t2).2

/-- A bootstrap call that has not yet run. -/
def bootCall (u : UserId) : BootCall := ⟨u, none, false⟩

/-- Count of system_administrator rows. -/
def adminCount (db : DB) : Nat :=
  (db.user_roles.filter fun rr => decide (rr.role = Role.system_administrator)).length

/-- Arithmetic bridge: the value the trigger's assignment to DECIMAL(2,1)
stores (when its UPDATE is not filtered away) equals the spec's
round-to-one-decimal of the mean. -/
theorem trigger_avg_eq_round1 (sum count : Nat) :
    trigger_avg_tenths sum count = round1_tenths sum count := by
  unfold trigger_avg_tenths round1_tenths
  rcases Nat.eq_zero_or_pos count with h0 | hpos
  · simp [h0]
  · have hc : ¬ count = 0 := by omega
    simp only [hc, if_false]
    have hmod := Nat.div_add_mod (10 * sum) count
    have hr : 10 * sum % count < count := Nat.mod_lt _ hpos
    have h2c : 0 < 2 * count := by omega
    set q := 10 * sum / count with hq
    set r := 10 * sum % count with hrdef
    have key : 20 * sum + count = (2 * r + count) + (2 * count) * q := by
      have h1 : 20 * sum = 2 * (count * q + r) := by rw [hmod]; ring
      rw [h1]; ring
    rw [key, Nat.add_mul_div_left _ _ h2c]
    by_cases hle : count ≤ 2 * r
    · have ha : 1 ≤ (2 * r + count) / (2 * count) :=
        (Nat.le_div_iff_mul_le h2c).mpr (by omega)
      have hb : (2 * r + count) / (2 * count) < 2 :=
        (Nat.div_lt_iff_lt_mul h2c).mpr (by omega)
      have hd1 : (2 * r + count) / (2 * count) = 1 :=
        Nat.le_antisymm (Nat.lt_succ_iff.mp hb) ha
      rw [if_pos hle, hd1]
      exact Nat.add_comm 1 q
    · have hz : (2 * r + count) / (2 * count) = 0 := Nat.div_eq_of_lt (by omega)
      rw [if_neg hle, hz]
      exact Nat.add_comm 0 q

/-- Membership reading of the pair-existence check. -/
theorem roleRowExists_iff (db : DB) (u : UserId) (r : Role) :
    roleRowExists db u r = true ↔ (⟨u, r⟩ : RoleRow) ∈ db.user_roles := by
  unfold roleRowExists
  rw [List.any_eq_true]
  constructor
  · rintro ⟨rr, hrr, hp⟩
    simp only [decide_eq_true_eq] at hp
    obtain ⟨h1, h2⟩ := hp
    cases rr
    cases h1
    cases h2
    exact hrr
  · intro hmem
    exact ⟨⟨u, r⟩, hmem, by simp⟩

/-- Membership reading of `has_role` (its body is the same EXISTS). -/
theorem has_role_iff (db : DB) (u : UserId) (r : Role) :
    has_role db u r = true ↔ (⟨u, r⟩ : RoleRow) ∈ db.user_roles :=
  roleRowExists_iff db u r

/-- With no role rows at all, a bootstrap step moves only the thread state:
the read step writes nothing, and the insert step is denied because its
caller cannot be an administrator. -/
theorem bootStep_fixed (db : DB) (t : BootCall) (h : db.user_roles = []) :
    (bootStep db t).1 = db := by
  rcases t with ⟨uid, saved, done⟩
  cases saved with
  | none => rfl
  | some c =>
    cases done with
    | true => rfl
    | false =>
      have hins : user_roles_insert_allowed db (some uid) = false := by
        simp [user_roles_insert_allowed, auth_has_role, has_role, h]
      simp [bootStep, hins]

/-- With no role rows at all, a whole schedule of two bootstrap calls
leaves the database exactly as it was. -/
theorem bootRun_fixed (sched : List Bool) (db : DB) (t1 t2 : BootCall)
    (h : db.user_roles = []) :
    bootRun sched db t1 t2 = db := by
  induction sched generalizing db t1 t2 with
  | nil => rfl
  | cons b rest ih =>
    cases b
    · show bootRun rest (bootStep db t2).1 t1 (bootStep db t2).2 = db
      rw [bootStep_fixed db t2 h]
      exact ih db t1 _ h
    · show bootRun rest (bootStep db t1).1 (bootStep db t1).2 t2 = db
      rw [bootStep_fixed db t1 h]
      exact ih db _ t2 h

/-- C1: evaluation of the code at the failing input. Store 100 belongs to
user 50 and carries the DEFAULT aggregates (0.0, 0); user 1, who holds
normal_user, submits rating 4 for it. The rating row is inserted, but the
trigger function is not SECURITY DEFINER, so its UPDATE of `stores` is
filtered by the owner-or-admin UPDATE policies and matches zero rows: the
aggregates stay 0.0/0 against a one-row ledger, violating the claimed
invariant at the very first submission. -/
theorem C1_submission_leaves_aggregates_stale :
    submitRating 1 100 4 ⟨[⟨1, Role.normal_user⟩], [⟨100, 50, "", "", "", 0, 0⟩], []⟩
        = Except.ok ⟨[⟨1, Role.normal_user⟩], [⟨100, 50, "", "", "", 0, 0⟩], [⟨1, 1, 100, 4⟩]⟩ ∧
    ¬ storeAggregatesConsistent
        ⟨[⟨1, Role.normal_user⟩], [⟨100, 50, "", "", "", 0, 0⟩], [⟨1, 1, 100, 4⟩]⟩ :=
  ⟨rfl, by decide⟩

/-- C2: evaluation of the code at the failing input. User 1 already holds
rating 4 for store 1; a second submission of value 5 goes out as an upsert
whose conflict target defaults to the fresh primary key, so it is a plain
insert, and the UNIQUE (user_id, store_id) constraint rejects it: the call
errors instead of overwriting the existing row, and the ledger keeps the
old value (an error carries no successor state). -/
theorem C2_second_submission_conflicts :
    submitRating 1 1 5 ⟨[⟨1, Role.normal_user⟩], [⟨1, 10, "", "", "", 40, 1⟩], [⟨0, 1, 1, 4⟩]⟩
      = Except.error DBError.uniqueViolation := by rfl

/-- C3: evaluation of the code at the failing input. User 7 has no role;
one role row (user 5, normal_user) exists system-wide. The bootstrap's
count query is RLS-filtered to user 7's own rows, so it reads 0 and picks
system_administrator even though the system-wide count is 1 — the
normal_user branch the claim describes is unreachable — and the insert
into `user_roles` is denied because no policy admits a non-administrator
INSERT: the call returns null and nothing is persisted. -/
theorem C3_bootstrap_insert_denied :
    assignDefaultRole ⟨[⟨5, Role.normal_user⟩], [], []⟩ 7
        = (none, ⟨[⟨5, Role.normal_user⟩], [], []⟩) ∧
    defaultRole ⟨[⟨5, Role.normal_user⟩], [], []⟩ 7 = Role.system_administrator :=
  ⟨rfl, rfl⟩

/-- C4 counterexample: two first-time logins of users 1 and 2 run to
completion without interleaving, and zero users end up with
system_administrator — not exactly one: both RLS-denied inserts persist
nothing. -/
theorem C4_counterexample :
    adminCount (bootRun [true, true, false, false] ⟨[], [], []⟩ (bootCall 1) (bootCall 2)) = 0 := by
  rfl

/-- C4 amended: the bootstrap is implemented as a separate count followed
by an insert, not as a single atomic conditional insert, and it assigns no
administrator at all: under every interleaving of two concurrent
first-time logins, both RLS-denied inserts persist nothing and the
database is left exactly as it was, so zero users are assigned
system_administrator. -/
theorem C4_bootstrap_persists_nothing (sched : List Bool) (u1 u2 : UserId) :
    bootRun sched ⟨[], [], []⟩ (bootCall u1) (bootCall u2) = ⟨[], [], []⟩ :=
  bootRun_fixed sched ⟨[], [], []⟩ (bootCall u1) (bootCall u2) rfl

/-- C5 counterexample: user 2 is authenticated, holds only normal_user, and
does not own store 1 (its owner is user 10), yet the SELECT policy on
`ratings` admits the read — it is not Forbidden. -/
theorem C5_counterexample :
    ratings_select_allowed ⟨[⟨2, Role.normal_user⟩], [⟨1, 10, "", "", "", 0, 0⟩], []⟩ (some 2)
        = true ∧
    (2 : UserId) ≠ 10 ∧
    has_role ⟨[⟨2, Role.normal_user⟩], [⟨1, 10, "", "", "", 0, 0⟩], []⟩ 2
        Role.system_administrator = false :=
  ⟨rfl, by decide, rfl⟩

/-- C5 amended: every authenticated actor may read the rating rows of any
store — the SELECT policy on `ratings` grants all authenticated sessions,
with no owner or administrator restriction. -/
theorem C5_all_authenticated_read_ratings (db : DB) (u : UserId) :
    ratings_select_allowed db (some u) = true := by
  simp [ratings_select_allowed]

/-- C6 counterexample: user 1 holds system_administrator (not normal_user)
and is not the row's user (the row belongs to user 2), yet the INSERT
policies on `ratings` admit the write. -/
theorem C6_counterexample :
    ratings_insert_allowed ⟨[⟨1, Role.system_administrator⟩], [⟨1, 10, "", "", "", 0, 0⟩], []⟩
        (some 1) ⟨5, 2, 1, 3⟩ = true ∧
    (1 : UserId) ≠ 2 ∧
    has_role ⟨[⟨1, Role.system_administrator⟩], [⟨1, 10, "", "", "", 0, 0⟩], []⟩ 1
        Role.normal_user = false :=
  ⟨rfl, by decide, rfl⟩

/-- C6 amended: a rating row can be created or updated exactly by an actor
who holds normal_user and is the row's own user, or by an actor who holds
system_administrator (for any row); every other actor is denied. -/
theorem C6_rating_writes_own_normal_or_admin (db : DB) (uid : Option UserId) (row : RatingRow) :
    (ratings_insert_allowed db uid row = true ∨ ratings_update_allowed db uid row = true) ↔
      ((∃ u, uid = some u ∧ (⟨u, Role.normal_user⟩ : RoleRow) ∈ db.user_roles
          ∧ u = row.user_id)
        ∨ (∃ u, uid = some u ∧ (⟨u, Role.system_administrator⟩ : RoleRow) ∈ db.user_roles)) := by
  cases uid with
  | none => simp [ratings_insert_allowed, ratings_update_allowed, auth_has_role]
  | some u =>
    simp [ratings_insert_allowed, ratings_update_allowed, auth_has_role, has_role_iff]

/-- C7 counterexample: the store's own owner (user 10) sends an UPDATE
whose SET list targets the aggregate columns, and it lands: average_rating
moves from 0 to 5.0 and total_ratings from 0 to 7 — the write is not
rejected and the aggregates do not stay unchanged. -/
theorem C7_counterexample :
    (update_store ⟨[], [⟨1, 10, "n", "e", "a", 0, 0⟩], []⟩ (some 10) 1
        ⟨none, none, none, some 50, some 7⟩).stores
      = [⟨1, 10, "n", "e", "a", 50, 7⟩] := by rfl

/-- C7 amended: the store-update path checks only the actor (the store's
owner, or a system_administrator), never the columns: an authorized
actor's SET list lands in full, aggregate columns included, while rows the
actor may not update are silently left unchanged (no Forbidden error). -/
theorem C7_store_update_checks_actor_only (db : DB) (uid : Option UserId)
    (sid : StoreId) (upd : StoreUpdate) :
    (∀ st ∈ db.stores, st.id = sid → stores_update_allowed db uid st = true →
        applyStoreUpdate upd st ∈ (update_store db uid sid upd).stores) ∧
    (∀ st ∈ db.stores, ¬ (st.id = sid ∧ stores_update_allowed db uid st = true) →
        st ∈ (update_store db uid sid upd).stores) := by
  constructor
  · intro st hmem hid hpol
    unfold update_store
    refine List.mem_map.mpr ⟨st, hmem, ?_⟩
    dsimp only
    rw [if_pos ⟨hid, hpol⟩]
  · intro st hmem hno
    unfold update_store
    refine List.mem_map.mpr ⟨st, hmem, ?_⟩
    dsimp only
    rw [if_neg hno]

/-- C8: a rating submission whose value lies outside [1, 5] is rejected by
the CHECK constraint: the call returns the check-violation error (the
spec's ValidationError) and, the statement having aborted, no rating row
is written or modified and the aggregates stand. -/
theorem C8_out_of_range_rejected (u : UserId) (s : StoreId) (v : Nat) (db : DB)
    (h : ¬ (1 ≤ v ∧ v ≤ 5)) :
    submitRating u s v db = Except.error DBError.checkViolation := by
  unfold submitRating ratings_upsert_on_pk
  split
  · rfl
  · rename_i hcond
    exact absurd (not_not.mp hcond) h

/-- C8 at a concrete input: value 7 is rejected with the check-violation
error. -/
theorem C8_witness :
    submitRating 1 1 7 ⟨[], [], []⟩ = Except.error DBError.checkViolation :=
  C8_out_of_range_rejected 1 1 7 ⟨[], [], []⟩ (by decide)

/-- C9 counterexample: user 1 already holds normal_user, yet assigning the
different role store_owner succeeds (no Conflict), leaving user 1 with two
role rows — uniqueness is only on the (user_id, role) pair. -/
theorem C9_counterexample :
    assign_role ⟨[⟨1, Role.normal_user⟩], [], []⟩ 1 Role.store_owner
      = Except.ok ⟨[⟨1, Role.normal_user⟩, ⟨1, Role.store_owner⟩], [], []⟩ ∧
    ((⟨[⟨1, Role.normal_user⟩, ⟨1, Role.store_owner⟩], [], []⟩ : DB).user_roles.filter
        fun rr => decide (rr.user_id = 1)).length = 2 :=
  ⟨rfl, rfl⟩

/-- C9 amended: assign_role fails with the uniqueness Conflict exactly when
the same (user, role) pair is already recorded; a different role for a
user who already holds one is inserted successfully, so a user can come to
hold several role rows. -/
theorem C9_conflict_only_same_pair (db : DB) (u : UserId) (r : Role) :
    assign_role db u r = Except.error DBError.uniqueViolation ↔
      (⟨u, r⟩ : RoleRow) ∈ db.user_roles := by
  unfold assign_role
  by_cases hmem : (⟨u, r⟩ : RoleRow) ∈ db.user_roles
  · rw [if_pos ((roleRowExists_iff db u r).mpr hmem)]
    simp [hmem]
  · rw [if_neg fun hc => hmem ((roleRowExists_iff db u r).mp hc)]
    simp [hmem]

/-- C10: when a user holds two or more role rows, the login lookup's
maybeSingle errors rather than selecting one of them, the role comes back
null, and the Index page renders the role-pending screen — the user is
treated as having no role at all. -/
theorem C10_multi_role_lookup_null (db : DB) (u : UserId)
    (h : 2 ≤ (db.user_roles.filter fun rr => decide (rr.user_id = u)).length) :
    (fetchUserRole db u).1 = none ∧
    renderDashboard (fetchUserRole db u).1 = Dashboard.rolePending := by
  have h1 : 1 < (db.user_roles.filter fun rr => decide (rr.user_id = u)).length := by omega
  unfold fetchUserRole
  rw [if_pos h1]
  exact ⟨rfl, rfl⟩

/-- C10 at a concrete input: user 1 holds both normal_user and store_owner,
and the lookup yields null and the pending screen. -/
theorem C10_witness :
    (fetchUserRole ⟨[⟨1, Role.normal_user⟩, ⟨1, Role.store_owner⟩], [], []⟩ 1).1 = none ∧
    renderDashboard
        (fetchUserRole ⟨[⟨1, Role.normal_user⟩, ⟨1, Role.store_owner⟩], [], []⟩ 1).1
      = Dashboard.rolePending :=
  C10_multi_role_lookup_null ⟨[⟨1, Role.normal_user⟩, ⟨1, Role.store_owner⟩], [], []⟩ 1
    (by decide)

end SpotCheck
